import Mathlib

/-!
Shallow embedding of the xmx-email orchestration core.

Each definition mirrors one function of the TypeScript/JavaScript source:

* `CacheService`  — the in-memory TTL cache of `gmail-service` (class `CacheService`).
* `RateLimiter`   — the fixed-window limiter (`RateLimiter.check`).
* `sendRoute` / `approveRoute` — the `app/api/llm/send` and `app/api/llm/approve`
  route handlers over the `llm_responses` table.
* `webhookProcess` — the `app/api/webhook/process-email` route handler.
* `llmProcess`    — the gated `app/api/llm/process` route handler (the version
  that calls the Python AI backend and gates response generation).
* `loadTokens`    — `GoogleAuthService.loadTokens` of `lib/google-auth.ts`.

Wall-clock time (`Date.now()`) is passed explicitly as a `Nat` of milliseconds;
network calls are passed as explicit outcome values (`FetchOutcome`), so a run
of an embedded handler is a pure function of the request, the stored state and
the responses of the external collaborators.
-/

/-- JavaScript string truthiness for an optional string field:
`undefined`/`null` and the empty string are falsy. -/
def strTruthy : Option String → Bool
  | none => false
  | some s => !(s == "")

/-! ## TTL cache (`CacheService` in the gmail service module)

`get` mirrors the source exactly: a missing key is a miss, an entry with
`Date.now() > item.expires` is deleted lazily and is a miss, otherwise the
stored data is returned.  `set` stores `expires = Date.now() + this.ttl`.
There is no background sweep. -/

structure CacheEntry (α : Type) where
  data : α
  expires : Nat
deriving Repr, DecidableEq

structure CacheService (α : Type) where
  cache : String → Option (CacheEntry α)
  ttl : Nat

/-- Constructor `new CacheService(ttlSeconds)` stores `ttl = ttlSeconds * 1000`. -/
def CacheService.make (α : Type) (ttlSeconds : Nat) : CacheService α :=
  ⟨fun _ => none, ttlSeconds * 1000⟩

def CacheService.set {α : Type} (c : CacheService α) (key : String) (data : α)
    (now : Nat) : CacheService α :=
  { c with cache := fun k => if k = key then some ⟨data, now + c.ttl⟩ else c.cache k }

def CacheService.get {α : Type} (c : CacheService α) (key : String) (now : Nat) :
    Option α × CacheService α :=
  match c.cache key with
  | none => (none, c)
  | some item =>
    if item.expires < now then
      (none, { c with cache := fun k => if k = key then none else c.cache k })
    else
      (some item.data, c)

/-! ## Fixed-window rate limiter (`RateLimiter.check`) -/

structure RLEntry where
  count : Nat
  resetTime : Nat
deriving Repr, DecidableEq

structure RateLimiter where
  store : String → Option RLEntry
  interval : Nat
  uniqueTokenPerInterval : Nat

structure CheckResult where
  success : Bool
  limit : Nat
  remaining : Int
  reset : Nat
deriving Repr, DecidableEq

def RateLimiter.getKey (identifier route : String) : String :=
  identifier ++ ":" ++ route

/-- One `check(identifier, route)` call at wall-clock time `now`.  Mirrors the
source: a missing or expired entry starts a fresh window `[now, now+interval]`
with count 1; a full window (`count >= uniqueTokenPerInterval`) denies; an
in-window entry below capacity is incremented. -/
def RateLimiter.check (rl : RateLimiter) (identifier route : String) (now : Nat) :
    CheckResult × RateLimiter :=
  let key := RateLimiter.getKey identifier route
  let freshEntry : RLEntry := ⟨1, now + rl.interval⟩
  let fresh : CheckResult × RateLimiter :=
    (⟨true, rl.uniqueTokenPerInterval, (rl.uniqueTokenPerInterval : Int) - 1,
      now + rl.interval⟩,
     { rl with store := fun k => if k = key then some freshEntry else rl.store k })
  match rl.store key with
  | none => fresh
  | some e =>
    if e.resetTime < now then
      fresh
    else if rl.uniqueTokenPerInterval ≤ e.count then
      (⟨false, rl.uniqueTokenPerInterval, 0, e.resetTime⟩, rl)
    else
      let e' : RLEntry := ⟨e.count + 1, e.resetTime⟩
      (⟨true, rl.uniqueTokenPerInterval,
        (rl.uniqueTokenPerInterval : Int) - ((e.count : Int) + 1), e.resetTime⟩,
       { rl with store := fun k => if k = key then some e' else rl.store k })

/-- Run a sequence of `check` calls for one `(identifier, route)` pair at the
given wall-clock times, threading the limiter state. -/
def runChecks (identifier route : String) :
    RateLimiter → List Nat → List CheckResult × RateLimiter
  | rl, [] => ([], rl)
  | rl, t :: ts =>
    let p := rl.check identifier route t
    let q := runChecks identifier route p.2 ts
    (p.1 :: q.1, q.2)

/-! ## Approval / send routes over the `llm_responses` table

One row per `email_id` (the table's unique key); the row is the persistent
`ProcessedEmail` aggregate seen by the approve and send handlers.  Timestamps
(`new Date().toISOString()`) are passed in as opaque strings. -/

structure LlmResponse where
  suggested_subject : String
  suggested_body : String
  approved : Bool
  sent : Bool
  sent_at : Option String
  updated_at : Option String
deriving Repr, DecidableEq

/-- The `llm_responses` table, keyed by `email_id`. -/
def Db : Type := String → Option LlmResponse

inductive SendResult where
  | badRequest   -- 400: missing email_id
  | notFound     -- 404: `.single()` found no row
  | sent         -- 200: marked as sent
deriving Repr, DecidableEq

structure SendOutcome where
  result : SendResult
  /-- The transport step ran (the mock Gmail send at the TODO site, which the
  route performs before the update whenever the row was found). -/
  transportInvoked : Bool
  db : Db

/-- The `app/api/llm/send` POST handler: reject a missing id, 404 when no row
exists, otherwise invoke the (mock) transport and update the row with
`sent = true`, `sent_at = now`, `approved = true` (auto-approve on send).
There is no check of the row's current `sent` flag. -/
def sendRoute (db : Db) (email_id : String) (now : String) : SendOutcome :=
  if email_id = "" then ⟨.badRequest, false, db⟩
  else
    match db email_id with
    | none => ⟨.notFound, false, db⟩
    | some r =>
      let r' : LlmResponse :=
        { r with sent := true, sent_at := some now, approved := true }
      ⟨.sent, true, fun k => if k = email_id then some r' else db k⟩

inductive ApproveResult where
  | badRequest   -- 400: missing email_id
  | success      -- 200 (the update reported no error, whether or not a row matched)
deriving Repr, DecidableEq

/-- The `app/api/llm/approve` POST handler: reject a missing id, then issue
`update({approved: true, updated_at: now, [suggested_body]}).eq('email_id', id)`.
An update matching zero rows reports no error, so the route answers success
even when no row exists.  The body overwrite is guarded by JS truthiness
(`if (updatedBody)`), so an absent or empty edited body leaves the stored
body alone. -/
def approveRoute (db : Db) (email_id : String) (updatedBody : Option String)
    (now : String) : ApproveResult × Db :=
  if email_id = "" then (.badRequest, db)
  else
    match db email_id with
    | none => (.success, db)
    | some r =>
      let r' : LlmResponse :=
        { r with approved := true, updated_at := some now,
                 suggested_body :=
                   if strTruthy updatedBody then updatedBody.getD r.suggested_body
                   else r.suggested_body }
      (.success, fun k => if k = email_id then some r' else db k)

/-- Modelled from the spec: creation of the `ProcessedEmail` row in state
`drafted` is performed by the Python AI backend, whose source is not part of
this repository snapshot; per the spec the orchestrator persists the aggregate
in state `drafted`, i.e. not yet approved and not yet sent. -/
def draftInsert (db : Db) (email_id : String) (r : LlmResponse) : Db :=
  fun k => if k = email_id then some { r with approved := false, sent := false } else db k

/-- One operation of the approval/send sub-machine acting on the table. -/
inductive Op where
  | draft (email_id : String) (r : LlmResponse)
  | approve (email_id : String) (updatedBody : Option String) (now : String)
  | send (email_id : String) (now : String)

def applyOp (db : Db) : Op → Db
  | .draft email_id r => draftInsert db email_id r
  | .approve email_id updatedBody now => (approveRoute db email_id updatedBody now).2
  | .send email_id now => (sendRoute db email_id now).db

/-- The state invariant of C5: no stored row has `sent = true` with
`approved = false`. -/
def SentImpliesApproved (db : Db) : Prop :=
  ∀ email_id r, db email_id = some r → r.sent = true → r.approved = true

/-! ## Webhook `process-email` route

The handler calls the Python backend three times (classify, tracking query,
generate).  Each network call is embedded as an explicit `FetchOutcome`
argument; the handler's own control flow — validation, the unconditional
classification and generation steps, and the try/catch that makes tracking
failures non-fatal — is reproduced from the source.  The handler reads no
stored state: it has no idempotency lookup of any kind. -/

inductive FetchOutcome (α : Type) where
  | ok (json : α)                  -- `response.ok` and the parsed JSON body
  | httpError (statusText : String) -- `!response.ok`
  | networkError (message : String) -- the fetch itself rejected
deriving Repr, DecidableEq

structure EmailProcessingRequest where
  email_id : String
  «from» : String
  «to» : String
  subject : String
  body : String
  received_at : Option String
  thread_id : Option String
deriving Repr, DecidableEq

/-- Classification JSON of the webhook flow (this backend contract carries no
product name at all). `confidence` is carried opaquely. -/
structure ClassificationResponse where
  is_support : Bool
  is_tracking : Bool
  sender_email : Option String
  urgency : Option String
  email_type : Option String
  classification_type : Option String
  confidence : Option Int
  processing_time_ms : Option Nat
deriving Repr, DecidableEq

structure TrackingData where
  order_id : String
  customer_email : String
  tracking_code : String
  status : String
  carrier : Option String
  shipped_date : Option String
  expected_delivery : Option String
  last_update : Option String
  origin : Option String
  destination : Option String
deriving Repr, DecidableEq

/-- Body of the tracking query response: `{found, tracking_data}`. -/
structure TrackingQueryJson where
  found : Bool
  tracking_data : Option TrackingData
deriving Repr, DecidableEq

structure ResponseGenerationResponse where
  suggested_subject : String
  suggested_body : String
  response_type : String
  tone : Option String
  requires_followup : Option Bool
  processing_time_ms : Option Nat
  total_tokens : Option Nat
deriving Repr, DecidableEq

/-- Which of the three external clients the handler actually called. -/
structure Invocations where
  classification : Bool
  tracking : Bool
  generation : Bool
deriving Repr, DecidableEq

inductive TrackingSummary where
  | foundOrder (order_id status tracking_code : String)
  | notFound
deriving Repr, DecidableEq

structure WebhookClassificationOut where
  is_support : Bool
  is_tracking : Bool
  type : Option String
  confidence : Option Int
deriving Repr, DecidableEq

structure WebhookResponseOut where
  subject : String
  body : String
  tone : Option String
  requires_followup : Option Bool
deriving Repr, DecidableEq

structure WebhookProcessing where
  total_time_ms : Nat
  tokens_used : Nat
deriving Repr, DecidableEq

structure WebhookSuccess where
  email_id : String
  classification : WebhookClassificationOut
  tracking : TrackingSummary
  response : WebhookResponseOut
  processing : WebhookProcessing
deriving Repr, DecidableEq

inductive WebhookResult where
  | badRequest (error : String)   -- 400: missing required fields
  | serverError (error : String)  -- 500: thrown error
  | ok (payload : WebhookSuccess) -- 200
deriving Repr, DecidableEq

def WebhookResult.isOk : WebhookResult → Bool
  | .ok _ => true
  | _ => false

/-- Validation of the required fields (`!email_id || !from || ...`). -/
def validRequest (req : EmailProcessingRequest) : Bool :=
  !(req.email_id == "") && !(req.«from» == "") && !(req.«to» == "") &&
  !(req.subject == "") && !(req.body == "")

/-- The `app/api/webhook/process-email` POST handler.

Step 1 classifies (mandatory: any failure is thrown and answered as a 500).
Step 2 queries tracking only when `is_tracking`, inside a try/catch whose
failure — and a `found = false` result — degrade to `trackingData = null`.
Step 3 generates a response unconditionally (there is no product/support
gate in this implementation) and its failure is thrown as a 500. -/
def webhookProcess (req : EmailProcessingRequest)
    (clsFetch : FetchOutcome ClassificationResponse)
    (trkFetch : FetchOutcome TrackingQueryJson)
    (genFetch : FetchOutcome ResponseGenerationResponse) :
    WebhookResult × Invocations :=
  if !validRequest req then
    (.badRequest "Missing required fields", ⟨false, false, false⟩)
  else
    match clsFetch with
    | .httpError st =>
      (.serverError ("Classification failed: " ++ st), ⟨true, false, false⟩)
    | .networkError m => (.serverError m, ⟨true, false, false⟩)
    | .ok classification =>
      let trackingStep : Option TrackingData × Bool :=
        if classification.is_tracking then
          (match trkFetch with
           | .ok j => if j.found then j.tracking_data else none
           | .httpError _ => none
           | .networkError _ => none,
           true)
        else (none, false)
      let trackingData := trackingStep.1
      match genFetch with
      | .httpError st =>
        (.serverError ("Response generation failed: " ++ st),
         ⟨true, trackingStep.2, true⟩)
      | .networkError m => (.serverError m, ⟨true, trackingStep.2, true⟩)
      | .ok generatedResponse =>
        (.ok
          { email_id := req.email_id
            classification :=
              ⟨classification.is_support, classification.is_tracking,
               classification.classification_type, classification.confidence⟩
            tracking :=
              match trackingData with
              | some td => .foundOrder td.order_id td.status td.tracking_code
              | none => .notFound
            response :=
              ⟨generatedResponse.suggested_subject, generatedResponse.suggested_body,
               generatedResponse.tone, generatedResponse.requires_followup⟩
            processing :=
              ⟨classification.processing_time_ms.getD 0 +
                 (if trackingData.isSome then 50 else 0) +
                 generatedResponse.processing_time_ms.getD 0,
               generatedResponse.total_tokens.getD 0⟩ },
         ⟨true, trackingStep.2, true⟩)

/-! ## Gated `app/api/llm/process` route

This is the later re-implementation of `Process` that calls the Python AI
backend's `/emails/process` (classification plus tracking in one call) and
then gates response generation on
`classification && classification.product_name && (is_support || is_tracking)`. -/

structure EmailData where
  email_id : String
  from_address : String
  to_address : String
  subject : String
  body : String
  received_at : String
deriving Repr, DecidableEq

/-- Fallback email payload used when the Gmail fetch fails. -/
def mockEmailData (email_id now : String) : EmailData :=
  ⟨email_id, "cliente@example.com", "support@biofraga.com", "Teste de processamento",
   "Este é um teste de processamento de e-mail", now⟩

/-- Classification as returned by the AI backend: this contract carries
`product_name`. -/
structure AIClassification where
  product_name : Option String
  is_support : Bool
  is_tracking : Bool
  urgency : Option String
  email_type : Option String
deriving Repr, DecidableEq

structure ProcessingResult where
  classification : Option AIClassification
  tracking_data : Option TrackingData
  tokens : Option Nat
  processing_time : Option Nat
deriving Repr, DecidableEq

/-- Parsed generation response; the route inspects `response_type` and
`error`. -/
structure GenJson where
  suggested_subject : Option String
  suggested_body : Option String
  response_type : Option String
  error : Option String
deriving Repr, DecidableEq

structure LlmOut where
  email_id : String
  classification : Option AIClassification
  tracking_data : Option TrackingData
  generated_response : Option GenJson
  response_generated : Bool
  message : Option String
deriving Repr, DecidableEq

/-- The `success: false` body returned when generation failed after a paid
classification (the partial-success contract). -/
structure LlmPartial where
  email_id : String
  classification : Option AIClassification
  tracking_data : Option TrackingData
  generated_response : Option GenJson
  error : String
deriving Repr, DecidableEq

inductive LlmProcessResult where
  | badRequest (error : String)        -- 400: missing email_id
  | unauthorized                       -- 401: no Supabase user
  | backendError (error : String)      -- passthrough of a non-ok `/emails/process`
  | internalError                      -- 500: a fetch threw
  | partialFailure (payload : LlmPartial)
  | ok (payload : LlmOut)
deriving Repr, DecidableEq

/-- The generation gate:
`classification && classification.product_name && (is_support || is_tracking)`. -/
def generationGate (classification : Option AIClassification) : Bool :=
  match classification with
  | some c => strTruthy c.product_name && (c.is_support || c.is_tracking)
  | none => false

def msgNoProduct : String :=
  "Email processado mas não foi gerada resposta pois não se refere a nenhum produto conhecido (Alphacur, Arialief, Blinzador, GoldenFrib, Kymezol, Presgera)"

def msgNotSupportTracking : String :=
  "Email processado mas não foi gerada resposta pois não é uma solicitação de suporte ou rastreamento"

/-- The gated `app/api/llm/process` POST handler.  Outputs the route's reply
together with a flag recording whether the generation client was called.
`gmailFetch` is the Gmail details lookup (its failure falls back to mock
data); `procFetch` the `/emails/process` call; `genFetch` the
`/response/generate` call, consulted only when the gate holds. -/
def llmProcess (email_id : String) (user : Option String)
    (gmailFetch : Except String EmailData) (now : String)
    (procFetch : FetchOutcome ProcessingResult) (genFetch : FetchOutcome GenJson) :
    LlmProcessResult × Bool :=
  if email_id = "" then (.badRequest "Email ID is required", false)
  else
    match user with
    | none => (.unauthorized, false)
    | some _ =>
      let emailData :=
        match gmailFetch with
        | .ok d => d
        | .error _ => mockEmailData email_id now
      match procFetch with
      | .httpError detail =>
        (.backendError (if detail == "" then "Failed to process email" else detail), false)
      | .networkError _ => (.internalError, false)
      | .ok processingResult =>
        let classification := processingResult.classification
        let trackingData := processingResult.tracking_data
        if generationGate classification then
          match genFetch with
          | .networkError _ => (.internalError, true)
          | .httpError detail =>
            (.partialFailure
              ⟨emailData.email_id, classification, trackingData, none,
               if detail == "" then "Erro ao gerar resposta" else detail⟩, true)
          | .ok generatedResponse =>
            if generatedResponse.response_type == some "error" ||
               strTruthy generatedResponse.error then
              (.partialFailure
                ⟨emailData.email_id, classification, trackingData,
                 some generatedResponse,
                 if strTruthy generatedResponse.error then
                   generatedResponse.error.getD ""
                 else "Erro ao gerar resposta"⟩, true)
            else
              (.ok ⟨emailData.email_id, classification, trackingData,
                    some generatedResponse, true, none⟩, true)
        else
          (.ok ⟨emailData.email_id, classification, trackingData, none, false,
                match classification with
                | some c =>
                  if !strTruthy c.product_name then some msgNoProduct
                  else some msgNotSupportTracking
                | none => some msgNotSupportTracking⟩, false)

/-- A concrete inbound request whose classification identifies no product. -/
def reqNoProduct : EmailProcessingRequest :=
  ⟨"e1", "cliente@example.com", "support@biofraga.com", "Duvida geral",
   "Olá, tenho uma duvida geral", none, none⟩

/-- A classification with no product (this contract has no product field at
all) and neither support nor tracking set. -/
def clsNoProduct : ClassificationResponse :=
  ⟨false, false, none, none, none, none, none, none⟩

def genSample : ResponseGenerationResponse :=
  ⟨"Re: Duvida geral", "Resposta gerada", "general", some "friendly", some false,
   some 120, some 430⟩

/-- A concrete already-sent row used to refute C6 as stated. -/
def sentRow : LlmResponse :=
  ⟨"Re: pedido", "corpo enviado", true, true, some "2024-01-01T00:00:00Z", none⟩

def sentDb : Db := fun k => if k = "e1" then some sentRow else none

/-! ## OAuth token lifecycle (`GoogleAuthService.loadTokens`)

`loadTokens(userEmail)` reads the `oauth_tokens` row, refreshes when the
stored `expiry_date` is truthy and in the past and a truthy `refresh_token`
exists (persisting the refreshed tokens), returns `null` when the refresh
fails, and otherwise returns the stored credential as-is.  The class holds no
lock and no in-flight registry: each call decides purely from the row it
read. -/

structure StoredTokens where
  access_token : String
  refresh_token : Option String
  expiry_date : Option Nat
  scope : Option String
  token_type : Option String
deriving Repr, DecidableEq

structure LoadResult where
  result : Option StoredTokens
  /-- Whether this call invoked `refreshAccessToken` (a network call). -/
  refreshIssued : Bool
  /-- The row this call persisted via `saveTokens`, when any. -/
  saved : Option StoredTokens
deriving Repr, DecidableEq

/-- The expiry test `data.expiry_date && data.expiry_date < Date.now()`: an
absent — or zero, hence falsy — `expiry_date` counts as not expired. -/
def tokenExpired (expiry_date : Option Nat) (now : Nat) : Bool :=
  match expiry_date with
  | some e => !(e == 0) && decide (e < now)
  | none => false

/-- One `loadTokens` call, given the row its `select` read and the outcome the
refresh endpoint would return if called. -/
def loadTokens (row : Option StoredTokens) (now : Nat)
    (refreshOutcome : Except String StoredTokens) : LoadResult :=
  match row with
  | none => ⟨none, false, none⟩
  | some data =>
    if tokenExpired data.expiry_date now && strTruthy data.refresh_token then
      match refreshOutcome with
      | .ok refreshedTokens => ⟨some refreshedTokens, true, some refreshedTokens⟩
      | .error _ => ⟨none, true, none⟩
    else
      ⟨some data, false, none⟩

/-- K concurrent `loadTokens` calls for one principal, in the legal
interleaving where every caller's row read completes before any caller's
`saveTokens` write lands (nothing in the source prevents this schedule: there
is no single-flight guard, no lock, and no shared in-flight promise).  Each
caller therefore decides from the same initially stored row. -/
def concurrentLoadTokens (row : Option StoredTokens) (now : Nat)
    (outcomes : List (Except String StoredTokens)) : List LoadResult :=
  outcomes.map (fun o => loadTokens row now o)

/-- Number of network refresh calls issued across the concurrent callers. -/
def refreshCallCount (row : Option StoredTokens) (now : Nat)
    (outcomes : List (Except String StoredTokens)) : Nat :=
  ((concurrentLoadTokens row now outcomes).filter (fun r => r.refreshIssued)).length

def expiredRow : StoredTokens :=
  ⟨"stale-access", some "rt-1", some 1000, some "gmail.readonly", some "Bearer"⟩

def refreshedRow : StoredTokens :=
  ⟨"new-access", some "rt-1", some 99999999, some "gmail.readonly", some "Bearer"⟩

/-- A `check` call on a key with no live entry starts a fresh window at `now`. -/
lemma check_fresh (rl : RateLimiter) (identifier route : String) (now : Nat)
    (h : rl.store (RateLimiter.getKey identifier route) = none) :
    rl.check identifier route now =
      (⟨true, rl.uniqueTokenPerInterval, (rl.uniqueTokenPerInterval : Int) - 1,
        now + rl.interval⟩,
       { rl with store := fun k =>
          if k = RateLimiter.getKey identifier route then some ⟨1, now + rl.interval⟩
          else rl.store k }) := by
  simp only [RateLimiter.check, h]

/-- A `check` call inside a live window below capacity increments the counter. -/
lemma check_increment (rl : RateLimiter) (identifier route : String) (now c R : Nat)
    (h : rl.store (RateLimiter.getKey identifier route) = some ⟨c, R⟩)
    (hin : ¬ R < now) (hc : c < rl.uniqueTokenPerInterval) :
    rl.check identifier route now =
      (⟨true, rl.uniqueTokenPerInterval,
        (rl.uniqueTokenPerInterval : Int) - ((c : Int) + 1), R⟩,
       { rl with store := fun k =>
          if k = RateLimiter.getKey identifier route then some ⟨c + 1, R⟩
          else rl.store k }) := by
  simp only [RateLimiter.check, h]
  rw [if_neg hin, if_neg (by omega)]

/-- A `check` call inside a live window at capacity denies and leaves the
limiter unchanged. -/
lemma check_full (rl : RateLimiter) (identifier route : String) (now c R : Nat)
    (h : rl.store (RateLimiter.getKey identifier route) = some ⟨c, R⟩)
    (hin : ¬ R < now) (hc : rl.uniqueTokenPerInterval ≤ c) :
    rl.check identifier route now =
      (⟨false, rl.uniqueTokenPerInterval, 0, R⟩, rl) := by
  simp only [RateLimiter.check, h]
  rw [if_neg hin, if_pos hc]

/-- A `check` call after the stored window expired starts a fresh window at
`now`, exactly like a first call. -/
lemma check_expired (rl : RateLimiter) (identifier route : String) (now c R : Nat)
    (h : rl.store (RateLimiter.getKey identifier route) = some ⟨c, R⟩)
    (hpast : R < now) :
    rl.check identifier route now =
      (⟨true, rl.uniqueTokenPerInterval, (rl.uniqueTokenPerInterval : Int) - 1,
        now + rl.interval⟩,
       { rl with store := fun k =>
          if k = RateLimiter.getKey identifier route then some ⟨1, now + rl.interval⟩
          else rl.store k }) := by
  simp only [RateLimiter.check, h]
  rw [if_pos hpast]

/-- Running further in-window calls from a live entry `⟨c, R⟩` with room for all
of them: every call succeeds and the counter ends at `c + ts.length`, with the
limiter configuration untouched. -/
lemma runChecks_inWindow (identifier route : String) (R : Nat) :
    ∀ (ts : List Nat) (rl : RateLimiter) (c : Nat),
      rl.store (RateLimiter.getKey identifier route) = some ⟨c, R⟩ →
      c + ts.length ≤ rl.uniqueTokenPerInterval →
      (∀ t ∈ ts, ¬ R < t) →
      (∀ r ∈ (runChecks identifier route rl ts).1, r.success = true) ∧
      (runChecks identifier route rl ts).2.store (RateLimiter.getKey identifier route)
        = some ⟨c + ts.length, R⟩ ∧
      (runChecks identifier route rl ts).2.interval = rl.interval ∧
      (runChecks identifier route rl ts).2.uniqueTokenPerInterval
        = rl.uniqueTokenPerInterval
  | [], rl, c => by
    intro h _ _
    simpa [runChecks] using h
  | t :: ts, rl, c => by
    intro h hroom hin
    have hc : c < rl.uniqueTokenPerInterval := by
      simp only [List.length_cons] at hroom; omega
    have hstep := check_increment rl identifier route t c R h
      (hin t (List.mem_cons_self t ts)) hc
    have hrest := runChecks_inWindow identifier route R ts
      (rl.check identifier route t).2 (c + 1)
      (by rw [hstep]; simp)
      (by rw [hstep]
          simp only [List.length_cons] at hroom
          show c + 1 + ts.length ≤ rl.uniqueTokenPerInterval
          omega)
      (fun u hu => hin u (List.mem_cons_of_mem t hu))
    refine ⟨?_, ?_, ?_, ?_⟩
    · intro r hr
      simp only [runChecks, List.mem_cons] at hr
      rcases hr with hr | hr
      · rw [hr, hstep]
      · exact hrest.1 r hr
    · simpa [runChecks, List.length_cons, Nat.add_assoc, Nat.add_comm 1 ts.length]
        using hrest.2.1
    · rw [show (runChecks identifier route rl (t :: ts)).2
          = (runChecks identifier route (rl.check identifier route t).2 ts).2 from rfl]
      rw [hrest.2.2.1, hstep]
    · rw [show (runChecks identifier route rl (t :: ts)).2
          = (runChecks identifier route (rl.check identifier route t).2 ts).2 from rfl]
      rw [hrest.2.2.2, hstep]

/-- C4: for a fresh `(identity, route)` key with window capacity `N ≥ 1`, the
first `N` `check` calls within the window opened by the first call all return
`allowed = true`; the `(N+1)`-th call still inside that window returns
`allowed = false`; and a call after the window has expired returns
`allowed = true` with `remaining = N - 1` and a fresh window starting at that
call's own time (`reset = tFresh + interval`), not at a fixed wall-clock
boundary. -/
theorem rateLimiter_window_boundary (rl : RateLimiter) (identifier route : String)
    (N t0 tBlocked tFresh : Nat) (ts : List Nat)
    (hcap : rl.uniqueTokenPerInterval = N) (hN : 1 ≤ N)
    (hfresh : rl.store (RateLimiter.getKey identifier route) = none)
    (hlen : ts.length = N - 1)
    (hts : ∀ t ∈ ts, ¬ t0 + rl.interval < t)
    (hblocked : ¬ t0 + rl.interval < tBlocked)
    (hexpired : t0 + rl.interval < tFresh) :
    (∀ r ∈ (runChecks identifier route rl (t0 :: ts)).1, r.success = true) ∧
    (((runChecks identifier route rl (t0 :: ts)).2.check identifier route tBlocked).1
      = ⟨false, N, 0, t0 + rl.interval⟩) ∧
    ((((runChecks identifier route rl (t0 :: ts)).2.check identifier route tBlocked).2.check
        identifier route tFresh).1
      = ⟨true, N, (N : Int) - 1, tFresh + rl.interval⟩) := by
  have hfirst := check_fresh rl identifier route t0 hfresh
  have hwin := runChecks_inWindow identifier route (t0 + rl.interval) ts
    (rl.check identifier route t0).2 1
    (by rw [hfirst]; simp)
    (by rw [hfirst]
        show 1 + ts.length ≤ rl.uniqueTokenPerInterval
        omega)
    hts
  have hcap1 : (runChecks identifier route (rl.check identifier route t0).2 ts).2.uniqueTokenPerInterval
      = N := by
    rw [hwin.2.2.2, hfirst, hcap]
  have hint1 : (runChecks identifier route (rl.check identifier route t0).2 ts).2.interval
      = rl.interval := by
    rw [hwin.2.2.1, hfirst]
  have hrun : (runChecks identifier route rl (t0 :: ts)).2
      = (runChecks identifier route (rl.check identifier route t0).2 ts).2 := rfl
  have hcount : 1 + ts.length = N := by omega
  have hblockedEq := check_full
    (runChecks identifier route (rl.check identifier route t0).2 ts).2 identifier route
    tBlocked (1 + ts.length) (t0 + rl.interval)
    (hwin.2.1) hblocked (by rw [hcap1]; omega)
  refine ⟨?_, ?_, ?_⟩
  · intro r hr
    simp only [runChecks, List.mem_cons] at hr
    rcases hr with hr | hr
    · rw [hr, hfirst]
    · exact hwin.1 r hr
  · rw [hrun, hblockedEq, hcap1]
  · rw [hrun, hblockedEq]
    have hfreshAgain := check_expired
      (runChecks identifier route (rl.check identifier route t0).2 ts).2 identifier route
      tFresh (1 + ts.length) (t0 + rl.interval) (hwin.2.1) hexpired
    rw [hfreshAgain, hcap1, hint1]

/-- Witness for C4 at a concrete limiter (capacity 2, interval 60): calls at
times 0 and 10 succeed, the third call at time 30 is denied, and a call at
time 100 (after expiry) succeeds with `remaining = 1` and `reset = 160`. -/
theorem rateLimiter_window_boundary_witness :
    (∀ r ∈ (runChecks "u" "/r" ⟨fun _ => none, 60, 2⟩ (0 :: [10])).1, r.success = true) ∧
    (((runChecks "u" "/r" ⟨fun _ => none, 60, 2⟩ (0 :: [10])).2.check "u" "/r" 30).1
      = ⟨false, 2, 0, 0 + 60⟩) ∧
    ((((runChecks "u" "/r" ⟨fun _ => none, 60, 2⟩ (0 :: [10])).2.check "u" "/r" 30).2.check
        "u" "/r" 100).1
      = ⟨true, 2, (2 : Int) - 1, 100 + 60⟩) :=
  rateLimiter_window_boundary ⟨fun _ => none, 60, 2⟩ "u" "/r" 2 0 30 100 [10]
    rfl (by decide) rfl rfl (by decide) (by decide) (by decide)

/-- C9: a value `Set` with TTL `T` is a cache hit (returning the stored value)
on a `Get` strictly before `T` milliseconds have elapsed, and a cache miss on a
`Get` after more than `T` milliseconds have elapsed; no background sweep is
involved (expiry is decided lazily inside `get`). -/
theorem cacheService_ttl {α : Type} (c : CacheService α) (k : String) (v : α)
    (tSet tHit tMiss : Nat) (hHit : tHit < tSet + c.ttl) (hMiss : tSet + c.ttl < tMiss) :
    ((c.set k v tSet).get k tHit).1 = some v ∧
    ((c.set k v tSet).get k tMiss).1 = none := by
  have hc : (c.set k v tSet).cache k = some ⟨v, tSet + c.ttl⟩ := by
    simp [CacheService.set]
  constructor
  · simp only [CacheService.get, hc]
    rw [if_neg (by omega)]
  · simp only [CacheService.get, hc]
    rw [if_pos (by omega)]

/-- Witness for C9 at a concrete cache, key, value and times. -/
theorem cacheService_ttl_witness :
    (3 < 0 + 5000 ∧ 0 + 5000 < 9000) ∧
    (((CacheService.make Nat 5).set "k" 42 0).get "k" 3).1 = some 42 ∧
    (((CacheService.make Nat 5).set "k" 42 0).get "k" 9000).1 = none :=
  ⟨by decide, cacheService_ttl (CacheService.make Nat 5) "k" 42 0 3 9000
    (by decide) (by decide)⟩

lemma sentImpliesApproved_applyOp (db : Db) (op : Op)
    (h : SentImpliesApproved db) : SentImpliesApproved (applyOp db op) := by
  cases op with
  | draft email_id r =>
    intro k q hk hs
    simp only [applyOp, draftInsert] at hk
    by_cases hkey : k = email_id
    · rw [if_pos hkey] at hk
      cases hk
      simp at hs
    · rw [if_neg hkey] at hk
      exact h k q hk hs
  | approve email_id updatedBody now =>
    intro k q hk hs
    simp only [applyOp, approveRoute] at hk
    by_cases hid : email_id = ""
    · rw [if_pos hid] at hk
      exact h k q hk hs
    · rw [if_neg hid] at hk
      cases hdb : db email_id with
      | none =>
        rw [hdb] at hk
        exact h k q hk hs
      | some r =>
        rw [hdb] at hk
        simp only at hk
        by_cases hkey : k = email_id
        · rw [if_pos hkey] at hk
          cases hk
          rfl
        · rw [if_neg hkey] at hk
          exact h k q hk hs
  | send email_id now =>
    intro k q hk hs
    simp only [applyOp, sendRoute] at hk
    by_cases hid : email_id = ""
    · rw [if_pos hid] at hk
      exact h k q hk hs
    · rw [if_neg hid] at hk
      cases hdb : db email_id with
      | none =>
        rw [hdb] at hk
        exact h k q hk hs
      | some r =>
        rw [hdb] at hk
        simp only at hk
        by_cases hkey : k = email_id
        · rw [if_pos hkey] at hk
          cases hk
          rfl
        · rw [if_neg hkey] at hk
          exact h k q hk hs

/-- C5: a completed `Send` on an existing row (approved before or not) leaves
the row with `approved = true ∧ sent = true` — sending auto-approves — and the
invariant `sent = true → approved = true` holds in every table reachable by
draft/approve/send operations from a table satisfying it. -/
theorem send_auto_approves (db0 : Db) (ops : List Op) (db : Db)
    (email_id now : String) (r : LlmResponse)
    (h0 : SentImpliesApproved db0)
    (hid : email_id ≠ "") (hrow : db email_id = some r) :
    SentImpliesApproved (ops.foldl applyOp db0) ∧
    (sendRoute db email_id now).db email_id
      = some { r with sent := true, sent_at := some now, approved := true } := by
  constructor
  · induction ops generalizing db0 with
    | nil => exact h0
    | cons op ops ih =>
      exact ih (applyOp db0 op) (sentImpliesApproved_applyOp db0 op h0)
  · simp only [sendRoute, if_neg hid, hrow]
    simp

/-- Witness for C5: a one-row table holding a drafted, never-approved record;
after `Send` the row is approved and sent, and a draft/approve/send run from
the empty table keeps the invariant. -/
theorem send_auto_approves_witness :
    SentImpliesApproved
      ([Op.draft "e1" ⟨"s", "b", false, false, none, none⟩,
        Op.send "e1" "t1"].foldl applyOp (fun _ => none)) ∧
    (sendRoute (fun k => if k = "e1" then some ⟨"s", "b", false, false, none, none⟩ else none)
        "e1" "t1").db "e1"
      = some ⟨"s", "b", true, true, some "t1", none⟩ :=
  send_auto_approves (fun _ => none)
    [Op.draft "e1" ⟨"s", "b", false, false, none, none⟩, Op.send "e1" "t1"]
    (fun k => if k = "e1" then some ⟨"s", "b", false, false, none, none⟩ else none)
    "e1" "t1" ⟨"s", "b", false, false, none, none⟩
    (fun _ _ h _ => by simp at h) (by decide) (by simp)

lemma generationGate_iff (o : Option AIClassification) :
    generationGate o = true ↔
      ∃ c, o = some c ∧ strTruthy c.product_name = true ∧
        (c.is_support = true ∨ c.is_tracking = true) := by
  cases o with
  | none => simp [generationGate]
  | some c => simp [generationGate, Bool.and_eq_true, Bool.or_eq_true]

/-- With the gate closed the handler answers `ok` with no generated response
and does not call the generation client. -/
lemma llmProcess_gate_false (email_id u : String) (gmailFetch : Except String EmailData)
    (now : String) (pr : ProcessingResult) (genFetch : FetchOutcome GenJson)
    (hid : ¬ email_id = "") (hg : generationGate pr.classification = false) :
    llmProcess email_id (some u) gmailFetch now (.ok pr) genFetch =
      (.ok ⟨(match gmailFetch with
             | .ok d => d
             | .error _ => mockEmailData email_id now).email_id,
            pr.classification, pr.tracking_data, none, false,
            match pr.classification with
            | some c =>
              if !strTruthy c.product_name then some msgNoProduct
              else some msgNotSupportTracking
            | none => some msgNotSupportTracking⟩, false) := by
  simp only [llmProcess, if_neg hid, hg, Bool.false_eq_true, if_false]

/-- With the gate open the generation client is called in every outcome. -/
lemma llmProcess_gate_true_flag (email_id u : String)
    (gmailFetch : Except String EmailData) (now : String) (pr : ProcessingResult)
    (genFetch : FetchOutcome GenJson)
    (hid : ¬ email_id = "") (hg : generationGate pr.classification = true) :
    (llmProcess email_id (some u) gmailFetch now (.ok pr) genFetch).2 = true := by
  cases genFetch with
  | networkError m => simp [llmProcess, if_neg hid, hg]
  | httpError detail => simp [llmProcess, if_neg hid, hg]
  | ok g =>
    simp only [llmProcess, if_neg hid, hg, if_true]
    split <;> rfl

/-- C1 amended: in the gated `llm/process` implementation, whenever the
classification carries no (or an empty) product name, the generation client is
not called and the reply's `generated_response` is `none`, regardless of the
support/tracking flags; and the generation client is called exactly when the
product name is non-empty and (`is_support` or `is_tracking`).  The webhook
`process-email` implementation of `Process`, by contrast, calls the generation
client on every validated request that classifies successfully. -/
theorem llmProcess_generation_gate (email_id u : String)
    (gmailFetch : Except String EmailData) (now : String) (pr : ProcessingResult)
    (genFetch : FetchOutcome GenJson) (hid : ¬ email_id = "") :
    ((∀ c, pr.classification = some c → strTruthy c.product_name = false) →
      (llmProcess email_id (some u) gmailFetch now (.ok pr) genFetch).2 = false ∧
      ∃ p, (llmProcess email_id (some u) gmailFetch now (.ok pr) genFetch).1 = .ok p ∧
        p.generated_response = none) ∧
    ((llmProcess email_id (some u) gmailFetch now (.ok pr) genFetch).2 = true ↔
      ∃ c, pr.classification = some c ∧ strTruthy c.product_name = true ∧
        (c.is_support = true ∨ c.is_tracking = true)) ∧
    (∀ req cls trk gen, validRequest req = true →
      (webhookProcess req (.ok cls) trk gen).2.generation = true) := by
  refine ⟨?_, ?_, ?_⟩
  · intro hnp
    have hg : generationGate pr.classification = false := by
      cases hcls : pr.classification with
      | none => simp [generationGate]
      | some c => simp [generationGate, hnp c hcls]
    rw [llmProcess_gate_false email_id u gmailFetch now pr genFetch hid hg]
    exact ⟨rfl, _, rfl, rfl⟩
  · constructor
    · intro hflag
      rw [← generationGate_iff]
      by_contra hg
      rw [llmProcess_gate_false email_id u gmailFetch now pr genFetch hid
        (Bool.not_eq_true _ ▸ hg)] at hflag
      exact absurd hflag (by simp)
    · intro hex
      exact llmProcess_gate_true_flag email_id u gmailFetch now pr genFetch hid
        ((generationGate_iff pr.classification).2 hex)
  · intro req cls trk gen hvalid
    cases gen <;> simp [webhookProcess, hvalid]

/-- Witness for the amended C1: a classification with support set but no
product name yields no generation call and `generated_response = none`. -/
theorem llmProcess_generation_gate_witness :
    ((∀ c, (ProcessingResult.mk
        (some ⟨none, true, true, none, none⟩) none none none).classification = some c →
        strTruthy c.product_name = false) →
      (llmProcess "e1" (some "u") (.error "gmail down") "t0"
        (.ok (ProcessingResult.mk (some ⟨none, true, true, none, none⟩) none none none))
        (.ok ⟨none, none, none, none⟩)).2 = false ∧
      ∃ p, (llmProcess "e1" (some "u") (.error "gmail down") "t0"
        (.ok (ProcessingResult.mk (some ⟨none, true, true, none, none⟩) none none none))
        (.ok ⟨none, none, none, none⟩)).1 = .ok p ∧ p.generated_response = none) ∧
    ((llmProcess "e1" (some "u") (.error "gmail down") "t0"
        (.ok (ProcessingResult.mk (some ⟨none, true, true, none, none⟩) none none none))
        (.ok ⟨none, none, none, none⟩)).2 = true ↔
      ∃ c, (ProcessingResult.mk
          (some ⟨none, true, true, none, none⟩) none none none).classification = some c ∧
        strTruthy c.product_name = true ∧
        (c.is_support = true ∨ c.is_tracking = true)) ∧
    (∀ req cls trk gen, validRequest req = true →
      (webhookProcess req (.ok cls) trk gen).2.generation = true) :=
  llmProcess_generation_gate "e1" "u" (.error "gmail down") "t0"
    (ProcessingResult.mk (some ⟨none, true, true, none, none⟩) none none none)
    (.ok ⟨none, none, none, none⟩) (by decide)

/-- C1 counterexample: the webhook `process-email` implementation of `Process`
invokes the response-generation client and returns a generated response even
when the classification carries no product name and neither `isSupport` nor
`isTracking` holds — the generation gate of the claim does not exist in this
implementation. -/
theorem webhook_generates_without_product :
    (webhookProcess reqNoProduct (.ok clsNoProduct) (.ok ⟨false, none⟩)
        (.ok genSample)).2.generation = true ∧
    (webhookProcess reqNoProduct (.ok clsNoProduct) (.ok ⟨false, none⟩)
        (.ok genSample)).1.isOk = true := by
  exact ⟨rfl, rfl⟩

/-- C8: for a tracking-classified email, a failing tracking call (HTTP error or
thrown fetch), a `found = false` lookup, or a found result with no payload is
non-fatal: the handler behaves exactly as if tracking had benignly found
nothing, the generation step still runs, and whenever generation succeeds the
call completes successfully with `tracking.found = false`. -/
theorem webhook_tracking_nonfatal (req : EmailProcessingRequest)
    (cls : ClassificationResponse) (trkFetch : FetchOutcome TrackingQueryJson)
    (gen : FetchOutcome ResponseGenerationResponse)
    (hvalid : validRequest req = true) (htrk : cls.is_tracking = true)
    (hfail : (∃ st, trkFetch = .httpError st) ∨ (∃ m, trkFetch = .networkError m) ∨
             (∃ j, trkFetch = .ok j ∧ (j.found = false ∨ j.tracking_data = none))) :
    webhookProcess req (.ok cls) trkFetch gen
      = webhookProcess req (.ok cls) (.ok ⟨false, none⟩) gen ∧
    (webhookProcess req (.ok cls) trkFetch gen).2.tracking = true ∧
    (webhookProcess req (.ok cls) trkFetch gen).2.generation = true ∧
    (∀ g, gen = .ok g →
      ∃ p, (webhookProcess req (.ok cls) trkFetch gen).1 = .ok p ∧
        p.tracking = TrackingSummary.notFound) := by
  have hstep : ∀ t : FetchOutcome TrackingQueryJson,
      (∃ st, t = .httpError st) ∨ (∃ m, t = .networkError m) ∨
        (∃ j, t = .ok j ∧ (j.found = false ∨ j.tracking_data = none)) →
      (match t with
       | .ok j => if j.found then j.tracking_data else none
       | .httpError _ => none
       | .networkError _ => (none : Option TrackingData)) = none := by
    intro t ht
    rcases ht with ⟨st, rfl⟩ | ⟨m, rfl⟩ | ⟨j, rfl, hj⟩
    · rfl
    · rfl
    · rcases hj with hj | hj <;> simp [hj]
  have hme := hstep trkFetch hfail
  have hbenign : (match (FetchOutcome.ok (⟨false, none⟩ : TrackingQueryJson)) with
       | .ok j => if j.found then j.tracking_data else none
       | .httpError _ => none
       | .networkError _ => (none : Option TrackingData)) = none := rfl
  cases gen with
  | httpError st =>
    refine ⟨?_, ?_, ?_, ?_⟩
    · simp [webhookProcess, hvalid, htrk]
    · simp [webhookProcess, hvalid, htrk]
    · simp [webhookProcess, hvalid, htrk]
    · intro g hg; cases hg
  | networkError m =>
    refine ⟨?_, ?_, ?_, ?_⟩
    · simp [webhookProcess, hvalid, htrk]
    · simp [webhookProcess, hvalid, htrk]
    · simp [webhookProcess, hvalid, htrk]
    · intro g hg; cases hg
  | ok g =>
    have heq : webhookProcess req (.ok cls) trkFetch (.ok g)
        = webhookProcess req (.ok cls) (.ok ⟨false, none⟩) (.ok g) := by
      simp only [webhookProcess, hvalid, htrk, Bool.not_true, Bool.false_eq_true,
        if_false, hme, hbenign]
    refine ⟨heq, ?_, ?_, ?_⟩
    · simp [webhookProcess, hvalid, htrk]
    · simp [webhookProcess, hvalid, htrk]
    · intro g' hg'
      cases hg'
      rw [heq]
      simp only [webhookProcess, hvalid, htrk, Bool.not_true, Bool.false_eq_true,
        if_false]
      exact ⟨_, rfl, rfl⟩

/-- Witness for C8: a concrete tracking-classified request whose tracking call
throws, yet the run equals the benign not-found run and succeeds. -/
theorem webhook_tracking_nonfatal_witness :
    (webhookProcess reqNoProduct
        (.ok { clsNoProduct with is_tracking := true })
        (.networkError "ECONNREFUSED") (.ok genSample)
      = webhookProcess reqNoProduct
          (.ok { clsNoProduct with is_tracking := true })
          (.ok ⟨false, none⟩) (.ok genSample)) ∧
    (webhookProcess reqNoProduct
        (.ok { clsNoProduct with is_tracking := true })
        (.networkError "ECONNREFUSED") (.ok genSample)).2.tracking = true ∧
    (webhookProcess reqNoProduct
        (.ok { clsNoProduct with is_tracking := true })
        (.networkError "ECONNREFUSED") (.ok genSample)).2.generation = true ∧
    (∀ g, (FetchOutcome.ok genSample
        : FetchOutcome ResponseGenerationResponse) = .ok g →
      ∃ p, (webhookProcess reqNoProduct
          (.ok { clsNoProduct with is_tracking := true })
          (.networkError "ECONNREFUSED") (.ok genSample)).1 = .ok p ∧
        p.tracking = TrackingSummary.notFound) :=
  webhook_tracking_nonfatal reqNoProduct { clsNoProduct with is_tracking := true }
    (.networkError "ECONNREFUSED") (.ok genSample) (by decide) rfl
    (Or.inr (Or.inl ⟨"ECONNREFUSED", rfl⟩))

/-- C2 amended: the webhook `Process` performs no idempotency lookup — it holds
no reference to the stored `ProcessedEmail` table, and every call that passes
validation re-invokes the classification client, so a second call for an
already-sent email repeats the external calls rather than returning the stored
record; two calls agree only because the handler is a pure function of the
request and of the external services' responses. -/
theorem webhook_always_classifies (req : EmailProcessingRequest)
    (cls : FetchOutcome ClassificationResponse) (trk : FetchOutcome TrackingQueryJson)
    (gen : FetchOutcome ResponseGenerationResponse)
    (hvalid : validRequest req = true) :
    (webhookProcess req cls trk gen).2.classification = true := by
  cases cls with
  | httpError st => simp [webhookProcess, hvalid]
  | networkError m => simp [webhookProcess, hvalid]
  | ok c => cases gen <;> simp [webhookProcess, hvalid]

/-- Witness for the amended C2 at a concrete request and set of responses. -/
theorem webhook_always_classifies_witness :
    validRequest reqNoProduct = true ∧
    (webhookProcess reqNoProduct (.ok clsNoProduct) (.ok ⟨false, none⟩)
        (.ok genSample)).2.classification = true :=
  ⟨by decide, webhook_always_classifies reqNoProduct (.ok clsNoProduct)
    (.ok ⟨false, none⟩) (.ok genSample) (by decide)⟩

/-- C6 counterexample: calling `Send` on a record that already has
`sent = true` is neither rejected nor a no-op — the route reports success,
runs the transport step again, and overwrites the record's `sent_at`. -/
theorem send_already_sent_not_noop :
    sentDb "e1" = some sentRow ∧ sentRow.sent = true ∧
    (sendRoute sentDb "e1" "2024-02-02T00:00:00Z").result = SendResult.sent ∧
    (sendRoute sentDb "e1" "2024-02-02T00:00:00Z").transportInvoked = true ∧
    (sendRoute sentDb "e1" "2024-02-02T00:00:00Z").db "e1" ≠ some sentRow := by
  refine ⟨rfl, rfl, rfl, rfl, ?_⟩
  simp [sendRoute, sentDb, sentRow]

/-- C6 amended: the send route performs no already-sent check — on a record
with `sent = true` it reports success, invokes the transport again, and
rewrites the row with the new `sent_at` (leaving `approved` and `sent` true).
Only a missing row (404) or a missing id (400) avoids the transport. -/
theorem send_already_sent_resends (db : Db) (email_id now : String) (r : LlmResponse)
    (hid : email_id ≠ "") (hrow : db email_id = some r) (_hsent : r.sent = true) :
    (sendRoute db email_id now).result = SendResult.sent ∧
    (sendRoute db email_id now).transportInvoked = true ∧
    (sendRoute db email_id now).db email_id
      = some { r with sent := true, sent_at := some now, approved := true } := by
  simp only [sendRoute, if_neg hid, hrow]
  simp

/-- Witness for the amended C6 on a concrete already-sent row. -/
theorem send_already_sent_resends_witness :
    (sendRoute sentDb "e1" "t9").result = SendResult.sent ∧
    (sendRoute sentDb "e1" "t9").transportInvoked = true ∧
    (sendRoute sentDb "e1" "t9").db "e1"
      = some { sentRow with sent := true, sent_at := some "t9", approved := true } :=
  send_already_sent_resends sentDb "e1" "t9" sentRow (by decide) rfl rfl

/-- C7 counterexample: `Approve` on an `email_id` with no stored record still
reports success (the filtered update matches zero rows and Supabase reports no
error), so approval does not require an existing record. -/
theorem approve_without_record_succeeds :
    ((fun _ => none : Db) "missing-id" = none) ∧
    (approveRoute (fun _ => none) "missing-id" none "t0").1 = ApproveResult.success := by
  exact ⟨rfl, rfl⟩

/-- C7 amended: the approve route does not check that a record exists — on a
missing `email_id` it reports success and leaves the table unchanged.  When a
record exists it sets `approved = true` and `updated_at = now`, overwriting
`suggested_body` only when the supplied edited body is truthy (non-empty);
re-approving an already-approved record changes nothing except `updated_at`. -/
theorem approve_route_behaviour (db : Db) (email_id now : String) (r : LlmResponse)
    (updatedBody : Option String) (hid : email_id ≠ "") :
    (db email_id = none →
      approveRoute db email_id updatedBody now = (ApproveResult.success, db)) ∧
    (db email_id = some r →
      (approveRoute db email_id updatedBody now).1 = ApproveResult.success ∧
      (approveRoute db email_id updatedBody now).2 email_id
        = some { r with approved := true, updated_at := some now,
                        suggested_body :=
                          if strTruthy updatedBody then updatedBody.getD r.suggested_body
                          else r.suggested_body }) ∧
    (db email_id = some r → r.approved = true →
      (approveRoute db email_id none now).2 email_id
        = some { r with updated_at := some now }) := by
  refine ⟨?_, ?_, ?_⟩
  · intro hnone
    simp only [approveRoute, if_neg hid, hnone]
  · intro hrow
    simp only [approveRoute, if_neg hid, hrow]
    simp
  · intro hrow happ
    cases r with
    | mk ss sb ap se sa ua =>
      have hap : ap = true := happ
      subst hap
      simp [approveRoute, if_neg hid, hrow, strTruthy]

/-- Witness for the amended C7: approving a missing id succeeds and leaves the
table unchanged; approving an existing approved row only refreshes
`updated_at`. -/
theorem approve_route_behaviour_witness :
    (approveRoute (fun _ => none) "e9" (some "novo corpo") "t0"
      = (ApproveResult.success, (fun _ => none : Db))) ∧
    ((approveRoute
        (fun k => if k = "e9" then some ⟨"s", "b", true, false, none, none⟩ else none)
        "e9" none "t0").2 "e9"
      = some ⟨"s", "b", true, false, none, some "t0"⟩) :=
  ⟨(approve_route_behaviour (fun _ => none) "e9" "t0"
      ⟨"s", "b", true, false, none, none⟩ (some "novo corpo") (by decide)).1 rfl,
   (approve_route_behaviour
      (fun k => if k = "e9" then some ⟨"s", "b", true, false, none, none⟩ else none)
      "e9" "t0" ⟨"s", "b", true, false, none, none⟩ none (by decide)).2.2
      (by simp) rfl⟩

/-- C3 counterexample: two concurrent `loadTokens` calls for the same
principal whose stored token is expired issue two network refresh calls, not
one — there is no single-flight collapse. -/
theorem concurrent_refresh_not_single_flight :
    refreshCallCount (some expiredRow) 2000 [.ok refreshedRow, .ok refreshedRow] = 2 ∧
    (2 : Nat) ≠ 1 := by
  exact ⟨rfl, by decide⟩

/-- C3 amended: `loadTokens` has no single-flight guard, so in the
interleaving where all K concurrent callers read the stored row before any
refresh completes, every caller whose read sees an expired token with a
refresh token present issues its own network refresh: K callers issue K
refresh calls.  Only strictly sequential calls (each after the previous save)
avoid redundant refreshes. -/
theorem concurrent_refresh_counts_all_callers (d : StoredTokens) (now e : Nat)
    (outcomes : List (Except String StoredTokens))
    (hexp : d.expiry_date = some e) (hnz : e ≠ 0) (hpast : e < now)
    (hrt : strTruthy d.refresh_token = true) :
    refreshCallCount (some d) now outcomes = outcomes.length := by
  have hone : ∀ o : Except String StoredTokens,
      (loadTokens (some d) now o).refreshIssued = true := by
    intro o
    cases o with
    | ok t => simp [loadTokens, tokenExpired, hexp, hnz, hpast, hrt]
    | error m => simp [loadTokens, tokenExpired, hexp, hnz, hpast, hrt]
  have hall : ∀ r ∈ concurrentLoadTokens (some d) now outcomes,
      (fun r : LoadResult => r.refreshIssued) r = true := by
    intro r hr
    simp only [concurrentLoadTokens, List.mem_map] at hr
    obtain ⟨o, _, rfl⟩ := hr
    exact hone o
  rw [refreshCallCount, List.filter_eq_self.2 (by simpa using hall)]
  simp [concurrentLoadTokens]

/-- Witness for the amended C3: three concurrent callers over a concrete
expired row issue three refresh calls. -/
theorem concurrent_refresh_counts_all_callers_witness :
    refreshCallCount (some expiredRow) 2000
      [.ok refreshedRow, .ok refreshedRow, .error "rate limited"] = 3 :=
  concurrent_refresh_counts_all_callers expiredRow 2000 1000
    [.ok refreshedRow, .ok refreshedRow, .error "rate limited"]
    rfl (by decide) (by decide) rfl

/-- C10: when the stored credential is expired (`expiry_date` truthy and in
the past) but carries no truthy `refresh_token`, `loadTokens` returns the
stale credential as-is — a non-null result — and issues no refresh, so callers
cannot assume a returned credential is unexpired. -/
theorem loadTokens_stale_without_refresh_token (d : StoredTokens) (now e : Nat)
    (o : Except String StoredTokens)
    (_hexp : d.expiry_date = some e) (_hnz : e ≠ 0) (_hpast : e < now)
    (hnort : strTruthy d.refresh_token = false) :
    (loadTokens (some d) now o).result = some d ∧
    (loadTokens (some d) now o).refreshIssued = false := by
  have hcond : (tokenExpired d.expiry_date now && strTruthy d.refresh_token) = false := by
    simp [hnort]
  constructor <;> simp [loadTokens, hcond]

/-- Witness for C10 on a concrete expired row with no refresh token. -/
theorem loadTokens_stale_without_refresh_token_witness :
    (loadTokens (some ⟨"stale-access", none, some 1000, none, some "Bearer"⟩) 2000
        (.error "unused")).result
      = some ⟨"stale-access", none, some 1000, none, some "Bearer"⟩ ∧
    (loadTokens (some ⟨"stale-access", none, some 1000, none, some "Bearer"⟩) 2000
        (.error "unused")).refreshIssued = false :=
  loadTokens_stale_without_refresh_token
    ⟨"stale-access", none, some 1000, none, some "Bearer"⟩ 2000 1000 (.error "unused")
    rfl (by decide) (by decide) rfl

/-- C2 counterexample: a sent `ProcessedEmail` record exists for email `e1`,
yet the webhook `Process` invoked for that very id still calls the
classification client — it neither returns the stored record nor skips the
external calls, because it performs no idempotency lookup. -/
theorem webhook_ignores_sent_record :
    sentDb "e1" = some sentRow ∧ sentRow.sent = true ∧
    reqNoProduct.email_id = "e1" ∧
    (webhookProcess reqNoProduct (.ok clsNoProduct) (.ok ⟨false, none⟩)
        (.ok genSample)).2.classification = true := by
  exact ⟨rfl, rfl, rfl, rfl⟩
